import Mathlib

/-!
Verification development for the `zaia-proxy-judit` repository.

The repository contains two Vercel serverless handlers,
`api/judit/movimentacoes.js` (minimal profile) and
`api/judit/movimentacoes/full.js` (full profile), that submit a lawsuit
lookup job to the JUDIT API, poll for its result within clamped time
budgets, and normalize the upstream payload into a fixed JSON shape.

This file shallowly embeds the pure logic of those handlers:

* JavaScript truthiness / `||` chains over nullable strings are embedded
  with `Option String` and `sOr`; scalar JSON values that the code
  inspects with `===` and truthiness are embedded with `JVal`.
* `parseInt(x, 10)` is embedded by `parseIntJs`, returning `none` for
  `NaN`; `Math.min`/`Math.max` against `NaN` propagate `none`.
* `new Date(step_date)` is an external parser; every theorem quantifies
  over an arbitrary `parse : Option String → Option Int` mapping a date
  string to its time value, `none` standing for an invalid date (`NaN`).
* `Array.prototype.sort` with the `(a, b) => new Date(b) - new Date(a)`
  comparator is embedded as a stable insertion sort (`sortSteps`) in
  which a comparator value of `NaN` counts as `+0` (keep order), per the
  ECMAScript `SortCompare` specification.  For a consistent comparator
  this agrees with any conforming implementation (the result is then
  the unique stable sorted permutation); for an inconsistent comparator
  (unparseable dates) ECMAScript leaves the order implementation-defined
  and this deterministic model matches V8's binary-insertion behaviour
  on small arrays.
* The network is an oracle: `PollEnv` gives, per iteration, the outcome
  of `getRequest` / `getResponses` (`CallResult`, where `thrown` embeds
  a rejected promise) and the wall-clock time the calls consume; the
  polling loops are embedded as fuelled recursions whose stopping
  condition is the wall-clock budget, exactly as in the source.
-/

/-- JavaScript `x || y` on nullable strings: `none` and the empty string
are falsy and fall through to `y`. -/
def sOr (a b : Option String) : Option String :=
  match a with
  | some s => if s = "" then b else some s
  | none => b

/-- Truthiness of a nullable string. -/
def sTruthy (a : Option String) : Bool :=
  match a with
  | some s => decide (s ≠ "")
  | none => false

/-- Scalar JSON value as inspected by the source with `===`, truthiness
and string interpolation. -/
inductive JVal where
  | null
  | str (s : String)
  | num (n : Int)
  | bool (b : Bool)
deriving DecidableEq

/-- JavaScript truthiness of a scalar value. -/
def JVal.truthy : JVal → Bool
  | .null => false
  | .str s => decide (s ≠ "")
  | .num n => decide (n ≠ 0)
  | .bool b => b

/-- JavaScript `String(v)` / template-literal rendering of a scalar. -/
def JVal.render : JVal → String
  | .null => "null"
  | .str s => s
  | .num n => toString n
  | .bool b => if b then "true" else "false"

/-- JavaScript `x || y` on scalar values. -/
def jvOr (a b : JVal) : JVal :=
  if a.truthy then a else b

/-- JavaScript `x || null` on a scalar value. -/
def jvOrNull (a : JVal) : JVal :=
  if a.truthy then a else .null

/-- JavaScript `String.prototype.trim`: strip whitespace from both
ends. -/
def jsTrim (s : String) : String :=
  String.mk (((s.data.dropWhile Char.isWhitespace).reverse.dropWhile
    Char.isWhitespace).reverse)

/-- JavaScript `String.prototype.toLowerCase` on the ASCII inputs the
source compares against. -/
def lowerAscii (s : String) : String :=
  String.mk (s.data.map Char.toLower)

/-- The handlers' `asBool`: trims, lowercases, and accepts the four
truthy literals (`movimentacoes.js` lines 11-15, `full.js` lines 11-15). -/
def asBool (v : Option String) : Bool :=
  match v with
  | none => false
  | some s =>
    let t := lowerAscii (jsTrim s)
    t == "1" || t == "true" || t == "yes" || t == "sim"

/-- JavaScript `q || d` for a query-string value before parsing: a missing
parameter (`URLSearchParams.get` returns `null`) and the empty string fall
back to the default literal. -/
def orDefault (q : Option String) (d : String) : String :=
  match q with
  | none => d
  | some s => if s = "" then d else s

/-- Value of a digit run, accumulating left to right and stopping at the
first non-digit, as `parseInt` does with radix 10. -/
def digitsToNat (acc : Nat) : List Char → Nat
  | [] => acc
  | c :: cs => if c.isDigit then digitsToNat (acc * 10 + (c.toNat - '0'.toNat)) cs else acc

/-- Whether the character list starts with a decimal digit. -/
def startsDigit : List Char → Bool
  | c :: _ => c.isDigit
  | [] => false

/-- JavaScript `parseInt(s, 10)`: skip leading whitespace, read an
optional sign and then a maximal run of decimal digits; `none` is `NaN`
(no digits found; anything after the digit run is ignored). -/
def parseIntJs (s : String) : Option Int :=
  match s.data.dropWhile Char.isWhitespace with
  | '-' :: cs => if startsDigit cs then some (-(digitsToNat 0 cs : Int)) else none
  | '+' :: cs => if startsDigit cs then some ((digitsToNat 0 cs : Int)) else none
  | cs => if startsDigit cs then some ((digitsToNat 0 cs : Int)) else none

/-- Effective `waitMs`: `Math.min(parseInt(waitMs || '30000', 10), 60000)`
(`movimentacoes.js` line 111, `full.js` line 192).  `none` is `NaN`. -/
def effWaitMs (q : Option String) : Option Int :=
  (parseIntJs (orDefault q "30000")).map (fun v => min v 60000)

/-- Effective poll interval:
`Math.max(750, Math.min(parseInt(pollMs || '1500', 10), 5000))`
(`movimentacoes.js` line 112, `full.js` line 193). -/
def effPollMs (q : Option String) : Option Int :=
  (parseIntJs (orDefault q "1500")).map (fun v => max 750 (min v 5000))

/-- Effective `graceMs`: `Math.min(parseInt(graceMs || '5000', 10), 15000)`
(`movimentacoes.js` line 116, `full.js` line 199). -/
def effGraceMs (q : Option String) : Option Int :=
  (parseIntJs (orDefault q "5000")).map (fun v => min v 15000)

/-- Effective grace poll interval:
`Math.max(500, Math.min(parseInt(gracePollMs || '800', 10), 3000))`
(`movimentacoes.js` line 117, `full.js` line 200). -/
def effGracePollMs (q : Option String) : Option Int :=
  (parseIntJs (orDefault q "800")).map (fun v => max 500 (min v 3000))

/-- One entry of the upstream `steps` array.  `priv` embeds the `private`
key (a Lean keyword); a missing key is embedded as `false`, which the
source's `!!s.private` collapses to anyway. -/
structure Step where
  step_id : Option String := none
  step_date : Option String := none
  content : Option String := none
  priv : Bool := false
deriving DecidableEq

/-- One lawyer document as read by the OAB fallback chain. -/
structure LawyerDoc where
  document_type : Option String := none
  document : Option String := none
deriving DecidableEq

/-- One lawyer of a party. -/
structure Lawyer where
  name : Option String := none
  oab : Option String := none
  documents : Option (List LawyerDoc) := none
deriving DecidableEq

/-- One element of a party's `documents` array: either a plain string or
an object carrying a `document` key (`typeof d === 'string' ? d :
d?.document || null`). -/
inductive PDoc where
  | str (s : String)
  | obj (document : Option String)
deriving DecidableEq

/-- One party of the lawsuit. -/
structure Party where
  name : Option String := none
  side : Option String := none
  person_type : Option String := none
  main_document : Option String := none
  documents : Option (List PDoc) := none
  lawyers : Option (List Lawyer) := none
deriving DecidableEq

/-- One element of `courts`. -/
structure Court where
  name : Option String := none
deriving DecidableEq

/-- One upstream attachment. -/
structure Attachment where
  attachment_id : Option String := none
  attachment_date : Option String := none
  attachment_name : Option String := none
  extension : Option String := none
  status : Option String := none
deriving DecidableEq

/-- Element of `classifications`/`subjects`: a plain string or an object
with an optional `name` key. -/
inductive NameOrStr where
  | str (s : String)
  | obj (name : Option String)
deriving DecidableEq

/-- A JSON field that the source probes with `Array.isArray`: either an
array of elements or a non-array scalar (absent = `.val .null`). -/
inductive ListOrVal where
  | arr (xs : List NameOrStr)
  | val (v : JVal)
deriving DecidableEq

/-- The flat fields the normalizers read off a lawsuit-shaped object
(either the record itself or its `response_data`).  `Option` field =
key possibly absent; `instance_` embeds the `instance` key (a Lean
keyword). -/
structure CaseData where
  steps : Option (List Step) := none
  status : Option String := none
  tribunal_acronym : Option String := none
  instance_ : JVal := .null
  phase : Option String := none
  parties : Option (List Party) := none
  attachments : Option (List Attachment) := none
  code : Option String := none
  classifications : ListOrVal := .val .null
  subjects : ListOrVal := .val .null
  courts : Option (List Court) := none
  court : Option String := none
  judge : Option String := none
  justice_description : Option String := none
  county : Option String := none
  city : Option String := none
  state : Option String := none
  situation : Option String := none
  distribution_date : Option String := none
  amount : JVal := .null
  secrecy_level : JVal := .null

/-- A lawsuit-shaped JSON object: its flat fields plus an optional nested
`response_data` object of the same shape. -/
inductive Lawsuit where
  | mk (response_data : Option Lawsuit) (data : CaseData)

/-- The `response_data` field. -/
def Lawsuit.response_data : Lawsuit → Option Lawsuit
  | .mk r _ => r

/-- The object's own flat fields. -/
def Lawsuit.data : Lawsuit → CaseData
  | .mk _ d => d

instance : Inhabited Lawsuit := ⟨.mk none {}⟩

/-- `rd = lawsuit?.response_data || lawsuit || {}` (`movimentacoes.js`
line 21, `full.js` line 19): flat fields of the wrapper when present,
else of the object itself, else an empty object. -/
def rdOf : Option Lawsuit → CaseData
  | none => {}
  | some l => (l.response_data.getD l).data

/-- `lawsuit?.steps` when it is an array. -/
def directSteps : Option Lawsuit → Option (List Step)
  | none => none
  | some l => l.data.steps

/-- `Array.isArray(lawsuit?.steps) ? [...lawsuit.steps] :
Array.isArray(rd?.steps) ? [...rd.steps] : []` (`movimentacoes.js`
lines 24-28, `full.js` lines 22-26) — note the direct field is tried
before the wrapper. -/
def stepsOf (lawsuit : Option Lawsuit) (rd : CaseData) : List Step :=
  match directSteps lawsuit with
  | some s => s
  | none => rd.steps.getD []

/-- Comparator outcome of `(a, b) => new Date(b.step_date) - new
Date(a.step_date)` folded into the keep-`a`-before-`b` decision of a
stable sort: `true` iff the comparator value is `≤ 0`, with `NaN`
treated as `+0` (keep order) per ECMAScript `SortCompare`. -/
def stepLe (parse : Option String → Option Int) (a b : Step) : Bool :=
  match parse b.step_date, parse a.step_date with
  | some db, some da => decide (db ≤ da)
  | _, _ => true

/-- Stable insertion of one step into an already processed list. -/
def insertStep (parse : Option String → Option Int) (a : Step) :
    List Step → List Step
  | [] => [a]
  | b :: l => if stepLe parse a b then a :: b :: l else b :: insertStep parse a l

/-- Stable sort of the steps with the date-descending comparator
(`steps.sort((a, b) => new Date(b.step_date) - new Date(a.step_date))`). -/
def sortSteps (parse : Option String → Option Int) : List Step → List Step
  | [] => []
  | a :: l => insertStep parse a (sortSteps parse l)

/-- Normalized movement entry of the full profile (`full.js` lines
119-125); `data` embeds the `data` key, `priv` the `private` key. -/
structure MovementOut where
  id : Option String
  data : Option String
  tipo : String
  conteudo : Option String
  priv : Bool
deriving DecidableEq

/-- Mapping of one step to its normalized movement (`full.js` lines
119-125 and 110-118 use the identical field computations). -/
def mkMovement (s : Step) : MovementOut :=
  { id := sOr s.step_id none
    data := sOr s.step_date none
    tipo := "ANDAMENTO"
    conteudo := sOr s.content none
    priv := s.priv }

/-- `rd?.status || (steps.length ? 'ANDAMENTO' : 'DESCONHECIDO')`
(`movimentacoes.js` line 33, `full.js` line 31). -/
def statusOf (rd : CaseData) (steps : List Step) : String :=
  match rd.status with
  | some s => if s = "" then (if steps.isEmpty then "DESCONHECIDO" else "ANDAMENTO") else s
  | none => if steps.isEmpty then "DESCONHECIDO" else "ANDAMENTO"

/-- `rd?.tribunal_acronym || lawsuit?.tribunal_acronym || null`
(`movimentacoes.js` line 34, `full.js` line 32). -/
def tribunalOf (rd : CaseData) (lawsuit : Option Lawsuit) : Option String :=
  sOr rd.tribunal_acronym
    (sOr (match lawsuit with | some l => l.data.tribunal_acronym | none => none) none)

/-- `rd?.instance || lawsuit?.instance || null` (`movimentacoes.js`
line 35, `full.js` line 33). -/
def instanciaOf (rd : CaseData) (lawsuit : Option Lawsuit) : JVal :=
  jvOr rd.instance_
    (jvOr (match lawsuit with | some l => l.data.instance_ | none => .null) .null)

/-- Degree formatting (`movimentacoes.js` lines 36-41, `full.js` lines
34-39): special-case `'1'`/`1` and `'2'`/`2`, else `instanciaRaw ||
'instância não informada'` rendered into the template literal. -/
def grauFmt (v : JVal) : String :=
  if v = JVal.str "1" ∨ v = JVal.num 1 then "1º grau"
  else if v = JVal.str "2" ∨ v = JVal.num 2 then "2º grau"
  else if v.truthy then v.render else "instância não informada"

/-- `tribunal ? `${tribunal} - ${grauFmt}` : 'Fonte não informada'`
(`movimentacoes.js` line 49, `full.js` line 106). -/
def fonteOf (tribunal : Option String) (grau : String) : Option String :=
  match tribunal with
  | some t => some (t ++ " - " ++ grau)
  | none => some "Fonte não informada"

/-- Whether a lowercase character list contains the substring `oab`. -/
def leadsWith : List Char → List Char → Bool
  | [], _ => true
  | _ :: _, [] => false
  | p :: ps, c :: cs => p == c && leadsWith ps cs

/-- Recursive substring search for `oab`. -/
def containsOabL : List Char → Bool
  | [] => false
  | c :: cs => leadsWith ['o', 'a', 'b'] (c :: cs) || containsOabL cs

/-- `l?.oab || (Array.isArray(l?.documents) ? (l.documents.find(doc =>
String(doc?.document_type || '').toLowerCase().includes('oab'))?.document
|| null) : null)` (`full.js` lines 58-64). -/
def lawyerOab (l : Lawyer) : Option String :=
  sOr l.oab
    (match l.documents with
     | some ds =>
       match ds.find? (fun d => containsOabL (lowerAscii (d.document_type.getD "")).data) with
       | some d => sOr d.document none
       | none => none
     | none => none)

/-- Normalized lawyer (`full.js` lines 56-65). -/
structure AdvogadoOut where
  nome : Option String
  oab : Option String
deriving DecidableEq

/-- Mapping of one lawyer. -/
def mkAdvogado (l : Lawyer) : AdvogadoOut :=
  { nome := sOr l.name none, oab := lawyerOab l }

/-- `typeof d === 'string' ? d : d?.document || null`. -/
def pdocVal : PDoc → Option String
  | .str s => some s
  | .obj d => sOr d none

/-- Normalized party (`full.js` lines 47-67). -/
structure ParteOut where
  nome : Option String
  polo : Option String
  tipo : Option String
  documento : Option String
  documentos : List String
  advogados : List AdvogadoOut
deriving DecidableEq

/-- Mapping of one party, including the `.filter(Boolean)` on mapped
document values. -/
def mkParte (p : Party) : ParteOut :=
  { nome := sOr p.name none
    polo := sOr p.side none
    tipo := sOr p.person_type none
    documento := sOr p.main_document none
    documentos :=
      match p.documents with
      | some ds => ds.filterMap (fun d =>
          match pdocVal d with
          | some s => if s = "" then none else some s
          | none => none)
      | none => []
    advogados :=
      match p.lawyers with
      | some ls => ls.map mkAdvogado
      | none => [] }

/-- `Array.isArray(rd?.parties) ? rd.parties : Array.isArray(
lawsuit?.parties) ? lawsuit.parties : []` (`full.js` lines 42-46). -/
def partiesOf (rd : CaseData) (lawsuit : Option Lawsuit) : List Party :=
  match rd.parties with
  | some ps => ps
  | none =>
    match lawsuit with
    | some l => l.data.parties.getD []
    | none => []

/-- Element mapping of `c => c?.name || c` composed with
`.filter(Boolean)`: a string element passes through (dropped when
empty), an object yields its truthy `name` or, failing that, the object
itself (always truthy, therefore kept). -/
def mapClassElem : NameOrStr → Option NameOrStr
  | .str s => if s = "" then none else some (NameOrStr.str s)
  | .obj n =>
    match sOr n none with
    | some v => some (NameOrStr.str v)
    | none => some (NameOrStr.obj n)

/-- `Array.isArray(f) ? f.map(c => c?.name || c).filter(Boolean) :
f || null` (`full.js` lines 72-77). -/
def classeOf (f : ListOrVal) : ListOrVal :=
  match f with
  | .arr xs => .arr (xs.filterMap mapClassElem)
  | .val v => .val (jvOrNull v)

/-- `(Array.isArray(rd?.courts) && rd.courts[0]?.name) || rd?.court ||
null` (`full.js` line 78). -/
def orgaoOf (rd : CaseData) : Option String :=
  sOr (match rd.courts with
       | some (c :: _) => c.name
       | some [] => none
       | none => none)
    (sOr rd.court none)

/-- Normalized `processo` block (`full.js` lines 70-91). -/
structure ProcessoOut where
  codigo : Option String
  classe : ListOrVal
  assuntos : ListOrVal
  orgao : Option String
  juiz : Option String
  tipo_justica : Option String
  instancia : JVal
  comarca : Option String
  cidade : Option String
  uf : Option String
  tribunal : Option String
  fase : Option String
  situacao : Option String
  distribuicao : Option String
  valor_causa : JVal
  sigilo : JVal
deriving DecidableEq

/-- Normalized attachment (`full.js` lines 95-101). -/
structure AnexoOut where
  id : Option String
  data : Option String
  nome : Option String
  extensao : Option String
  status : Option String
deriving DecidableEq

/-- Mapping of one attachment. -/
def mkAnexo (a : Attachment) : AnexoOut :=
  { id := sOr a.attachment_id none
    data := sOr a.attachment_date none
    nome := sOr a.attachment_name none
    extensao := sOr a.extension none
    status := sOr a.status none }

/-- The `meta` object the handlers pass into the builders.  `parcial`
embeds the is-partial key of the source meta object, `cached` the
`cached_response` key. -/
structure MetaIn where
  request_status : Option String := none
  parcial : Option Bool := none
  cached : Option Bool := none
  waited_ms : Option Int := none
  attempts : Option Int := none
  message : Option String := none
deriving DecidableEq

/-- The normalized `meta` block (`full.js` lines 129-136).  `parcial`
embeds the is-partial key. -/
structure MetaOut where
  request_status : Option String
  parcial : Bool
  cached_response : Bool
  waited_ms : Int
  attempts : Int
  message : Option String
deriving DecidableEq

/-- Mapping of the meta object (`full.js` lines 129-136). -/
def mkMeta (m : MetaIn) : MetaOut :=
  { request_status := sOr m.request_status none
    parcial := m.parcial.getD false
    cached_response := m.cached.getD false
    waited_ms := m.waited_ms.getD 0
    attempts := m.attempts.getD 0
    message := sOr m.message none }

/-- The `error` object the handlers pass into the builders.  `detail` is
carried opaquely: only its presence (JS truthiness — the source only
ever passes non-empty objects or omits it) is observable downstream. -/
structure ErrorIn where
  message : Option String := none
  detail : Option Unit := none
deriving DecidableEq

/-- Normalized `erro` block (`full.js` lines 137-139). -/
structure ErroOut where
  message : String
  detail : Option Unit
deriving DecidableEq

/-- The full-profile payload (`full.js` lines 103-140). -/
structure FullPayload where
  ok : Bool
  cnj : Option String
  fonte : Option String
  status : String
  ultima_movimentacao_data : Option String
  texto : Option String
  ultima_movimentacao : Option MovementOut
  movimentacoes : List MovementOut
  processo : ProcessoOut
  partes : List ParteOut
  anexos : List AnexoOut
  meta : MetaOut
  erro : Option ErroOut

/-- `buildFullPayload` (`full.js` lines 18-141), parameterized by the
external date parser used inside the sort comparator. -/
def buildFullPayload (parse : Option String → Option Int) (cnj : Option String)
    (lawsuit : Option Lawsuit) (error : Option ErrorIn) (meta : MetaIn)
    (includeAttachments : Bool) : FullPayload :=
  let rd := rdOf lawsuit
  let steps := sortSteps parse (stepsOf lawsuit rd)
  let last := steps.head?
  let status := statusOf rd steps
  let tribunal := tribunalOf rd lawsuit
  let instanciaRaw := instanciaOf rd lawsuit
  let grau := grauFmt instanciaRaw
  { ok := error.isNone
    cnj := cnj
    fonte := fonteOf tribunal grau
    status := status
    ultima_movimentacao_data :=
      match last with
      | some s => sOr s.step_date none
      | none => none
    texto :=
      match last with
      | some s => sOr s.content none
      | none => none
    ultima_movimentacao := last.map mkMovement
    movimentacoes := steps.map mkMovement
    processo :=
      { codigo := sOr rd.code (sOr cnj none)
        classe := classeOf rd.classifications
        assuntos := classeOf rd.subjects
        orgao := orgaoOf rd
        juiz := sOr rd.judge none
        tipo_justica := sOr rd.justice_description none
        instancia := jvOrNull instanciaRaw
        comarca := sOr rd.county none
        cidade := sOr rd.city none
        uf := sOr rd.state none
        tribunal := sOr tribunal none
        fase := sOr rd.phase none
        situacao := sOr rd.situation none
        distribuicao := sOr rd.distribution_date none
        valor_causa := jvOrNull rd.amount
        sigilo := rd.secrecy_level }
    partes := (partiesOf rd lawsuit).map mkParte
    anexos :=
      if includeAttachments then (rd.attachments.getD []).map mkAnexo else []
    meta := mkMeta meta
    erro := error.map (fun e =>
      { message := (sOr e.message none).getD "Erro desconhecido no proxy"
        detail := e.detail }) }

/-- The minimal-profile `processo` block. -/
structure MinProcesso where
  fase : Option String
deriving DecidableEq

/-- The minimal-profile `ultima_movimentacao` block. -/
structure MinUltima where
  conteudo : Option String
deriving DecidableEq

/-- The minimal-profile payload (`movimentacoes.js` lines 47-56). -/
structure MinimalPayload where
  cnj : Option String
  fonte : Option String
  status : Option String
  processo : MinProcesso
  ultima_movimentacao : MinUltima
  ultima_movimentacao_data : Option String
deriving DecidableEq

/-- `buildMinimalPayload` (`movimentacoes.js` lines 20-57). -/
def buildMinimalPayload (parse : Option String → Option Int)
    (cnj : Option String) (lawsuit : Option Lawsuit) : MinimalPayload :=
  let rd := rdOf lawsuit
  let steps := sortSteps parse (stepsOf lawsuit rd)
  let last := steps.head?
  let status := statusOf rd steps
  let tribunal := tribunalOf rd lawsuit
  let grau := grauFmt (instanciaOf rd lawsuit)
  { cnj := sOr cnj none
    fonte := fonteOf tribunal grau
    status := if status = "" then none else some status
    processo := { fase := sOr rd.phase none }
    ultima_movimentacao :=
      { conteudo :=
          match last with
          | some s => sOr s.content none
          | none => none }
    ultima_movimentacao_data :=
      match last with
      | some s => sOr s.step_date none
      | none => none }

/-- Outcome of one upstream HTTP call: the parsed JSON on success, or a
rejected promise (whose object carries a `message` read only by the
outer catch). -/
inductive CallResult (α : Type) where
  | ok (val : α)
  | thrown (msg : Option String)

/-- One element of `page_data`: its `request_status` field, the
truthiness of `tags?.cached_response`, and the record viewed as a
lawsuit-shaped object (whose `response_data` field is the record's
`response_data`). -/
structure ResultRecord where
  request_status : Option String := none
  cached : Bool := false
  body : Lawsuit := .mk none {}

/-- `completed?.response_data || completed` (`full.js` line 260 and
analogues): the record's `response_data` when present, else the record
itself. -/
def lawsuitOf (r : ResultRecord) : Lawsuit :=
  r.body.response_data.getD r.body

/-- Parsed body of a `getResponses` call: `page_data` is `some` exactly
when `Array.isArray(resp?.page_data)` holds. -/
structure PollResp where
  page_data : Option (List ResultRecord) := none
  request_status : Option String := none

/-- The upstream oracle for one invocation: per main-loop iteration, the
outcome of `getRequest` (its `status` field) and `getResponses`, and the
wall-clock milliseconds both calls consume; likewise per grace-loop
iteration (which performs no `getRequest`). -/
structure PollEnv where
  statusAt : Nat → CallResult (Option String)
  respAt : Nat → CallResult PollResp
  callDur : Nat → Nat
  graceRespAt : Nat → CallResult PollResp
  graceDur : Nat → Nat

/-- Mutable loop state: elapsed wall-clock ms since `start`, the
`attempts` counter, the last-seen record (`completed`), and
`requestStatus`. -/
structure PollState where
  elapsed : Nat := 0
  attempts : Nat := 0
  completed : Option ResultRecord := none
  requestStatus : String := "pending"

/-- `requestStatus === 'completed' || completed?.request_status ===
'completed'` (`movimentacoes.js` line 179 etc.). -/
def completedSig (requestStatus : String) (completed : Option ResultRecord) : Bool :=
  requestStatus == "completed" ||
    (match completed with
     | some r => r.request_status == some "completed"
     | none => false)

/-- `Date.now() - start < waitMs` where `waitMs` may be `NaN` (`none`):
any comparison against `NaN` is false. -/
def jsLtNat (e : Nat) (w : Option Int) : Bool :=
  match w with
  | some v => decide ((e : Int) < v)
  | none => false

/-- `setTimeout` delay coercion: `NaN` and negative delays fire
immediately. -/
def sleepDur : Option Int → Nat
  | none => 0
  | some v => v.toNat

/-- The `getResponses` block shared by both loops (`movimentacoes.js`
lines 174-181 and 190-197): on a non-empty `page_data`, record the first
element and `resp?.request_status || requestStatus`, then report whether
the completion signal fires (the loop `break`s); failures and empty
pages change nothing and never break. -/
def pollFetch (f : Nat → CallResult PollResp) (i : Nat) (st : PollState) :
    PollState × Bool :=
  match f i with
  | .thrown _ => (st, false)
  | .ok resp =>
    match resp.page_data with
    | some (r :: _) =>
      let st' := { st with
        completed := some r
        requestStatus := (sOr resp.request_status none).getD st.requestStatus }
      (st', completedSig st'.requestStatus st'.completed)
    | _ => (st, false)

/-- The `getRequest` block (`movimentacoes.js` lines 169-172):
`requestStatus = r?.status || requestStatus`, failures ignored. -/
def pollStatus (env : PollEnv) (i : Nat) (st : PollState) : PollState :=
  match env.statusAt i with
  | .ok s => { st with requestStatus := (sOr s none).getD st.requestStatus }
  | .thrown _ => st

/-- One main-loop iteration body before the sleep: `attempts += 1`, the
`getRequest` block, the `getResponses` block; the call time is added to
the elapsed clock; the Bool is the `break` decision. -/
def pollIter (env : PollEnv) (i : Nat) (st : PollState) : PollState × Bool :=
  let p := pollFetch env.respAt i (pollStatus env i { st with attempts := st.attempts + 1 })
  ({ p.1 with elapsed := p.1.elapsed + env.callDur i }, p.2)

/-- The main polling loop (`movimentacoes.js` lines 166-184, `full.js`
lines 227-239), fuelled: each round first checks
`Date.now() - start < waitMs`, runs the iteration body, exits on the
break signal, else sleeps `pollMs` and repeats.  The iteration index is
the pre-increment `attempts` counter, which counts iterations exactly. -/
def pollLoopAux (env : PollEnv) (waitMs pollMs : Option Int) :
    Nat → PollState → PollState
  | 0, st => st
  | fuel + 1, st =>
    if jsLtNat st.elapsed waitMs then
      let p := pollIter env st.attempts st
      if p.2 then p.1
      else pollLoopAux env waitMs pollMs fuel
        { p.1 with elapsed := p.1.elapsed + sleepDur pollMs }
    else st

/-- One grace-loop iteration plus loop driver (`movimentacoes.js` lines
188-199): no `getRequest`, no `attempts` increment, its own deadline
`g < graceMs` measured from the grace start (`k` is the grace iteration
index, `g` the grace-elapsed clock at the top of the round). -/
def graceLoopAux (env : PollEnv) (graceMs gracePollMs : Option Int) :
    Nat → Nat → Nat → PollState → PollState
  | 0, _, _, st => st
  | fuel + 1, k, g, st =>
    if jsLtNat g graceMs then
      let p := pollFetch env.graceRespAt k st
      let st1 := { p.1 with elapsed := p.1.elapsed + env.graceDur k }
      if p.2 then st1
      else graceLoopAux env graceMs gracePollMs fuel (k + 1)
        (g + env.graceDur k + sleepDur gracePollMs)
        { st1 with elapsed := st1.elapsed + sleepDur gracePollMs }
    else st

/-- The initial loop state (`movimentacoes.js` lines 161-164). -/
def initPollState : PollState := {}

/-- Main loop followed by the optional grace loop, entered only when
`retryOnPending` holds and no completion signal fired
(`movimentacoes.js` lines 187-200, `full.js` lines 241-254). -/
def runLoops (env : PollEnv) (waitMs pollMs graceMs gracePollMs : Option Int)
    (retry : Bool) (f1 f2 : Nat) : PollState :=
  let st := pollLoopAux env waitMs pollMs f1 initPollState
  if retry && !completedSig st.requestStatus st.completed then
    graceLoopAux env graceMs gracePollMs f2 0 0 st
  else st

/-- Terminal classification of the full handler (`full.js` lines
256-287): completed → 200; record without completion signal → 202 with
the still-finishing message; no record → 202 with the timeout error. -/
def fullFinal (parse : Option String → Option Int) (cnj : String)
    (incAtt : Bool) (st : PollState) : Int × FullPayload :=
  match st.completed with
  | some r =>
    if completedSig st.requestStatus st.completed then
      (200, buildFullPayload parse (some cnj) (some (lawsuitOf r)) none
        { request_status := some "completed"
          parcial := some false
          cached := some r.cached
          waited_ms := some (st.elapsed : Int)
          attempts := some (st.attempts : Int) } incAtt)
    else
      (202, buildFullPayload parse (some cnj) (some (lawsuitOf r)) none
        { request_status := sOr (some st.requestStatus) (sOr r.request_status (some "pending"))
          parcial := some true
          cached := some r.cached
          waited_ms := some (st.elapsed : Int)
          attempts := some (st.attempts : Int)
          message := some "Resposta parcial: a JUDIT ainda está finalizando." } incAtt)
  | none =>
    (202, buildFullPayload parse (some cnj) none
      (some { message := some "Não foi possível obter as movimentações dentro do tempo limite."
              detail := some () })
      { request_status := some st.requestStatus
        parcial := some true
        waited_ms := some (st.elapsed : Int)
        attempts := some (st.attempts : Int) } incAtt)

/-- The minimal handler's fixed all-null body (`movimentacoes.js` lines
124-131, 136-143, 150-157, 218-225, 229-236). -/
def minimalNullBody (cnj : Option String) : MinimalPayload :=
  { cnj := cnj
    fonte := some "Fonte não informada"
    status := none
    processo := { fase := none }
    ultima_movimentacao := { conteudo := none }
    ultima_movimentacao_data := none }

/-- Terminal classification of the minimal handler (`movimentacoes.js`
lines 202-225). -/
def minimalFinal (parse : Option String → Option Int) (cnj : String)
    (st : PollState) : Int × MinimalPayload :=
  match st.completed with
  | some r =>
    if completedSig st.requestStatus st.completed then
      (200, buildMinimalPayload parse (some cnj) (some (lawsuitOf r)))
    else
      (202, buildMinimalPayload parse (some cnj) (some (lawsuitOf r)))
  | none => (202, minimalNullBody (some cnj))

/-- Inbound query parameters; each is `URLSearchParams.get`'s result
(`none` = absent). -/
structure QueryParams where
  cnj : Option String := none
  waitMs : Option String := none
  pollMs : Option String := none
  retryOnPending : Option String := none
  graceMs : Option String := none
  gracePollMs : Option String := none
  forceOnDemand : Option String := none
  withAttachments : Option String := none
  includeAttachments : Option String := none

/-- Parsed body of `createRequest`. -/
structure SubmitResp where
  request_id : Option String := none

/-- Per-invocation external facts: whether `JUDIT_API_KEY` is set, the
submission outcome, and the polling oracle. -/
structure HandlerEnv where
  hasApiKey : Bool
  submitResult : CallResult SubmitResp
  env : PollEnv

/-- The full handler (`full.js` lines 187-295) as a function of the
query and the external environment: validation (400), configuration
(500), submission failure caught by the outer catch (500), missing
`request_id` (502), else the two loops followed by `fullFinal`. -/
def fullHandler (parse : Option String → Option Int) (q : QueryParams)
    (henv : HandlerEnv) (f1 f2 : Nat) : Int × FullPayload :=
  let cnj := jsTrim (q.cnj.getD "")
  let incAtt := asBool (orDefault q.includeAttachments "0")
  if cnj = "" then
    (400, buildFullPayload parse none none
      (some { message := some "Parâmetro \"cnj\" é obrigatório.", detail := none })
      { parcial := some true } incAtt)
  else if !henv.hasApiKey then
    (500, buildFullPayload parse (some cnj) none
      (some { message := some "JUDIT_API_KEY não configurada.", detail := none })
      { parcial := some true } incAtt)
  else
    match henv.submitResult with
    | .thrown m =>
      (500, buildFullPayload parse none none
        (some { message := some ((sOr m none).getD "Erro inesperado no proxy")
                detail := some () })
        { parcial := some true } false)
    | .ok created =>
      match sOr created.request_id none with
      | none =>
        (502, buildFullPayload parse (some cnj) none
          (some { message := some "request_id não retornado.", detail := some () })
          { parcial := some true } incAtt)
      | some _ =>
        fullFinal parse cnj incAtt
          (runLoops henv.env (effWaitMs q.waitMs) (effPollMs q.pollMs)
            (effGraceMs q.graceMs) (effGracePollMs q.gracePollMs)
            (asBool (orDefault q.retryOnPending "0")) f1 f2)

/-- The minimal handler (`movimentacoes.js` lines 105-238). -/
def minimalHandler (parse : Option String → Option Int) (q : QueryParams)
    (henv : HandlerEnv) (f1 f2 : Nat) : Int × MinimalPayload :=
  let cnj := jsTrim (q.cnj.getD "")
  if cnj = "" then
    (400, minimalNullBody none)
  else if !henv.hasApiKey then
    (500, minimalNullBody (some cnj))
  else
    match henv.submitResult with
    | .thrown _ => (500, minimalNullBody none)
    | .ok created =>
      match sOr created.request_id none with
      | none => (502, minimalNullBody (some cnj))
      | some _ =>
        minimalFinal parse cnj
          (runLoops henv.env (effWaitMs q.waitMs) (effPollMs q.pollMs)
            (effGraceMs q.graceMs) (effGracePollMs q.gracePollMs)
            (asBool (orDefault q.retryOnPending "0")) f1 f2)

/-- Non-strict comparison of two possibly-NaN date values: vacuously true
when either side is undefined. -/
def dleB : Option Int → Option Int → Bool
  | some u, some v => decide (u ≤ v)
  | _, _ => true

/-- The movement list is sorted by timestamp non-ascending: for every
earlier/later pair whose exposed dates both parse, the later timestamp
is at most the earlier one. -/
def sortedMovs (parse : Option String → Option Int) (l : List MovementOut) : Prop :=
  l.Pairwise (fun a b => dleB (parse b.data) (parse a.data) = true)

instance (parse : Option String → Option Int) (l : List MovementOut) :
    Decidable (sortedMovs parse l) :=
  inferInstanceAs (Decidable (l.Pairwise _))

/-- A date parser that resolves nothing: every date is invalid. -/
def noParse : Option String → Option Int := fun _ => none

/-- A concrete date parser used on closed inputs. -/
def cexParse : Option String → Option Int :=
  fun s =>
    match s with
    | some "5" => some 5
    | some "10" => some 10
    | _ => none

/-- A lawsuit whose middle step has an unparseable date (under
`cexParse`) between two parseable ones in ascending order. -/
def cexLawsuit : Lawsuit :=
  .mk none
    { steps := some
        [{ step_date := some "5", content := some "a" },
         { step_date := some "X", content := some "b" },
         { step_date := some "10", content := some "c" }] }

/-- A lawsuit whose steps all carry parseable dates (under `cexParse`). -/
def okLawsuit : Lawsuit :=
  .mk none
    { steps := some
        [{ step_date := some "5", content := some "velho" },
         { step_date := some "10", content := some "novo" }] }

/-- A polling oracle on which every call fails. -/
def deadPollEnv : PollEnv :=
  { statusAt := fun _ => .thrown none
    respAt := fun _ => .thrown none
    callDur := fun _ => 0
    graceRespAt := fun _ => .thrown none
    graceDur := fun _ => 0 }

/-- A handler environment with no credential and a dead network. -/
def deadHandlerEnv : HandlerEnv :=
  { hasApiKey := false, submitResult := .thrown none, env := deadPollEnv }

/-- A record whose own `request_status` is `completed`. -/
def okRecord : ResultRecord := { request_status := some "completed" }

/-- A polling oracle whose every `getResponses` immediately returns one
completed record. -/
def okPollEnv : PollEnv :=
  { deadPollEnv with
    respAt := fun _ => .ok { page_data := some [okRecord], request_status := some "completed" } }

/-- A handler environment that submits successfully onto `okPollEnv`. -/
def okHandlerEnv : HandlerEnv :=
  { hasApiKey := true, submitResult := .ok { request_id := some "req-1" }, env := okPollEnv }

/-- A handler environment that submits successfully but whose polling
calls all fail: the loops end with no record. -/
def timeoutHandlerEnv : HandlerEnv :=
  { hasApiKey := true, submitResult := .ok { request_id := some "req-1" }, env := deadPollEnv }

/-- C4 counterexample: the upstream instance value `0` is non-null, yet
the rendered degree is the fallback literal rather than the verbatim
`"0"` — JavaScript `instanciaRaw || 'instância não informada'` treats
every falsy value (0, empty string, false) like null. -/
theorem grau_falsy_counterexample :
    JVal.num 0 ≠ JVal.null ∧
    (buildFullPayload noParse none
        (some (Lawsuit.mk none { tribunal_acronym := some "TJBA", instance_ := JVal.num 0 }))
        none {} false).fonte = some "TJBA - instância não informada" ∧
    JVal.render (JVal.num 0) = "0" ∧
    some "TJBA - instância não informada" ≠ (some "TJBA - 0" : Option String) := by
  refine ⟨by decide, by decide, by decide, by decide⟩

/-- C4 (amended): instance `'1'`/`1` renders `"1º grau"`, `'2'`/`2`
renders `"2º grau"`, any other TRUTHY value renders verbatim, and every
falsy value (null, absent, `0`, `''`, `false`) renders the fallback
literal `"instância não informada"`. -/
theorem grau_rendering_amended (v : JVal) :
    ((v = JVal.str "1" ∨ v = JVal.num 1) → grauFmt v = "1º grau") ∧
    ((v = JVal.str "2" ∨ v = JVal.num 2) → grauFmt v = "2º grau") ∧
    (v.truthy = true →
      ¬(v = JVal.str "1" ∨ v = JVal.num 1 ∨ v = JVal.str "2" ∨ v = JVal.num 2) →
      grauFmt v = v.render) ∧
    (v.truthy = false → grauFmt v = "instância não informada") := by
  refine ⟨?_, ?_, ?_, ?_⟩
  · rintro (rfl | rfl) <;> decide
  · rintro (rfl | rfl) <;> decide
  · intro ht hns
    simp only [not_or] at hns
    obtain ⟨h1, h2, h3, h4⟩ := hns
    rw [grauFmt, if_neg (by tauto), if_neg (by tauto), if_pos ht]
  · intro ht
    cases v with
    | null => decide
    | str s =>
      have hs : s = "" := by simpa [JVal.truthy] using ht
      subst hs; decide
    | num n =>
      have hn : n = 0 := by simpa [JVal.truthy] using ht
      subst hn; decide
    | bool b =>
      have hb : b = false := by simpa [JVal.truthy] using ht
      subst hb; decide

/-- C4 witness: a truthy non-special instance value renders verbatim. -/
theorem grau_rendering_amended_witness :
    grauFmt (JVal.str "3") = JVal.render (JVal.str "3") :=
  (grau_rendering_amended (JVal.str "3")).2.2.1 (by decide) (by decide)

/-- C5 counterexample: a non-numeric `pollMs` (or `waitMs`) parses to
`NaN`; the effective value is then not a number in `[750, 5000]` at all,
and the actual sleep it induces is 0 ms, outside the claimed clamp. -/
theorem clamp_nonnumeric_counterexample :
    effWaitMs (some "nope") = none ∧
    effPollMs (some "nope") = none ∧
    (¬ ∃ v : Int, effPollMs (some "nope") = some v ∧ 750 ≤ v ∧ v ≤ 5000) ∧
    sleepDur (effPollMs (some "nope")) = 0 := by
  refine ⟨by decide, by decide, ?_, by decide⟩
  rintro ⟨v, hv, -⟩
  rw [show effPollMs (some "nope") = none from by decide] at hv
  exact Option.noConfusion hv

/-- C5 (amended): whenever the parameter string parses to a number, the
clamps hold — `waitMs ≤ 60000`, `pollMs ∈ [750, 5000]`,
`graceMs ≤ 15000`, `gracePollMs ∈ [500, 3000]`; a non-numeric parameter
instead yields `NaN` (see the counterexample). -/
theorem effective_params_clamped :
    (∀ q v, effWaitMs q = some v → v ≤ 60000) ∧
    (∀ q v, effPollMs q = some v → 750 ≤ v ∧ v ≤ 5000) ∧
    (∀ q v, effGraceMs q = some v → v ≤ 15000) ∧
    (∀ q v, effGracePollMs q = some v → 500 ≤ v ∧ v ≤ 3000) := by
  refine ⟨?_, ?_, ?_, ?_⟩ <;>
    (intro q v h
     simp only [effWaitMs, effPollMs, effGraceMs, effGracePollMs,
       Option.map_eq_some'] at h
     obtain ⟨p, -, rfl⟩ := h
     omega)

/-- C5 witness: an out-of-range `waitMs` is clamped to the cap. -/
theorem effective_params_clamped_witness :
    effWaitMs (some "999999") = some 60000 ∧ (60000 : Int) ≤ 60000 :=
  ⟨by decide, effective_params_clamped.1 (some "999999") 60000 (by decide)⟩

/-- C8: the normalizers are pure functions of their inputs — two
invocations on equal inputs produce equal payloads (the embedding is a
total function; the source builders perform no I/O and read no mutable
state). -/
theorem normalizer_deterministic (parse : Option String → Option Int)
    (c1 c2 : Option String) (l1 l2 : Option Lawsuit) (e1 e2 : Option ErrorIn)
    (m1 m2 : MetaIn) (b1 b2 : Bool)
    (hc : c1 = c2) (hl : l1 = l2) (he : e1 = e2) (hm : m1 = m2) (hb : b1 = b2) :
    buildFullPayload parse c1 l1 e1 m1 b1 = buildFullPayload parse c2 l2 e2 m2 b2 ∧
    buildMinimalPayload parse c1 l1 = buildMinimalPayload parse c2 l2 := by
  subst hc; subst hl; subst he; subst hm; subst hb
  exact ⟨rfl, rfl⟩

/-- C8 witness: determinism at a concrete input. -/
theorem normalizer_deterministic_witness :
    buildFullPayload cexParse (some "c") (some okLawsuit) none {} false =
      buildFullPayload cexParse (some "c") (some okLawsuit) none {} false :=
  (normalizer_deterministic cexParse (some "c") (some "c") (some okLawsuit)
    (some okLawsuit) none none {} {} false false rfl rfl rfl rfl rfl).1

/-- C9: with `includeAttachments = false` the output attachment list is
empty whatever the upstream payload holds, and a non-empty output
attachment list forces the flag to be true. -/
theorem attachments_gated_by_flag (parse : Option String → Option Int)
    (cnj : Option String) (lawsuit : Option Lawsuit) (error : Option ErrorIn)
    (meta : MetaIn) :
    (buildFullPayload parse cnj lawsuit error meta false).anexos = [] ∧
    (∀ b : Bool,
      (buildFullPayload parse cnj lawsuit error meta b).anexos ≠ [] → b = true) := by
  constructor
  · simp [buildFullPayload]
  · intro b h
    cases b with
    | false => exact absurd (by simp [buildFullPayload]) h
    | true => rfl

/-- C9 witness: even an upstream payload carrying an attachment yields an
empty attachment list when the flag is off. -/
theorem attachments_gated_by_flag_witness :
    (buildFullPayload noParse none
        (some (Lawsuit.mk none { attachments := some [{ attachment_name := some "doc.pdf" }] }))
        none {} false).anexos = [] :=
  (attachments_gated_by_flag noParse none
    (some (Lawsuit.mk none { attachments := some [{ attachment_name := some "doc.pdf" }] }))
    none {}).1

/-- C6 counterexample: when the steps list is present both directly on
the record and under `response_data`, the normalizer takes the DIRECT
one — `Array.isArray(lawsuit?.steps)` is tested before `rd?.steps` —
contradicting the claimed wrapper preference. -/
theorem steps_direct_preference_counterexample :
    (buildFullPayload noParse none
        (some (Lawsuit.mk
          (some (Lawsuit.mk none { steps := some [{ content := some "wrapper" }] }))
          { steps := some [{ content := some "direto" }] }))
        none {} false).movimentacoes.map MovementOut.conteudo = [some "direto"] ∧
    ([some "direto"] : List (Option String)) ≠ [some "wrapper"] := by
  exact ⟨by decide, by decide⟩

/-- C6 (amended): scalar fields (status, tribunal acronym, phase, …) do
prefer the `response_data` wrapper when both nestings are present, but
the steps/movement list prefers the directly-nested array over the
wrapper's. -/
theorem field_nesting_preference (parse : Option String → Option Int)
    (cnj : Option String) (error : Option ErrorIn) (meta : MetaIn) (incAtt : Bool)
    (inner : Lawsuit) (ldata : CaseData) (ds es : List Step) (s t p : String)
    (hds : ldata.steps = some ds) (hes : inner.data.steps = some es)
    (hs : inner.data.status = some s) (hs' : s ≠ "")
    (ht : inner.data.tribunal_acronym = some t) (ht' : t ≠ "")
    (hp : inner.data.phase = some p) (hp' : p ≠ "") :
    (buildFullPayload parse cnj (some (Lawsuit.mk (some inner) ldata)) error meta
        incAtt).movimentacoes = (sortSteps parse ds).map mkMovement ∧
    (buildFullPayload parse cnj (some (Lawsuit.mk (some inner) ldata)) error meta
        incAtt).status = s ∧
    (buildFullPayload parse cnj (some (Lawsuit.mk (some inner) ldata)) error meta
        incAtt).processo.tribunal = some t ∧
    (buildFullPayload parse cnj (some (Lawsuit.mk (some inner) ldata)) error meta
        incAtt).processo.fase = some p := by
  have hrd : rdOf (some (Lawsuit.mk (some inner) ldata)) = inner.data := rfl
  have hsteps : stepsOf (some (Lawsuit.mk (some inner) ldata))
      (rdOf (some (Lawsuit.mk (some inner) ldata))) = ds := by
    simp [stepsOf, directSteps, Lawsuit.data, hds]
  refine ⟨?_, ?_, ?_, ?_⟩
  · simp [buildFullPayload, hsteps]
  · simp [buildFullPayload, hsteps, hrd, statusOf, hs, hs']
  · simp [buildFullPayload, hrd, tribunalOf, sOr, ht, ht']
  · simp [buildFullPayload, hrd, sOr, hp, hp']

/-- C6 witness: wrapper preference for scalars and direct preference for
steps at a concrete payload. -/
theorem field_nesting_preference_witness :
    (buildFullPayload noParse none
        (some (Lawsuit.mk
          (some (Lawsuit.mk none
            { steps := some [{ content := some "w" }]
              status := some "ARQUIVADO"
              tribunal_acronym := some "TJSP"
              phase := some "Execução" }))
          { steps := some [{ content := some "d" }] }))
        none {} false).status = "ARQUIVADO" :=
  (field_nesting_preference noParse none none {} false
    (Lawsuit.mk none
      { steps := some [{ content := some "w" }]
        status := some "ARQUIVADO"
        tribunal_acronym := some "TJSP"
        phase := some "Execução" })
    { steps := some [{ content := some "d" }] }
    [{ content := some "d" }] [{ content := some "w" }]
    "ARQUIVADO" "TJSP" "Execução"
    rfl rfl rfl (by decide) rfl (by decide) rfl (by decide)).2.1

/-- C7 counterexample: on a whitespace-only `cnj` the minimal handler
does answer 400, but the fixed body is not all-null — `fonte` carries
the literal `'Fonte não informada'`. -/
theorem minimal_missing_cnj_fonte_counterexample :
    (minimalHandler noParse { cnj := some "   " } deadHandlerEnv 0 0).1 = 400 ∧
    (minimalHandler noParse { cnj := some "   " } deadHandlerEnv 0 0).2.fonte ≠ none := by
  exact ⟨by decide, by decide⟩

/-- C7 (amended): a trimmed-empty `cnj` yields 400 on both profiles; the
full body carries the error message `Parâmetro "cnj" é obrigatório.`;
the minimal body carries its fixed key set with null values except
`fonte`, which holds the fallback literal `'Fonte não informada'`. -/
theorem missing_cnj_responses (parse : Option String → Option Int)
    (q : QueryParams) (henv : HandlerEnv) (f1 f2 : Nat)
    (h : jsTrim (q.cnj.getD "") = "") :
    minimalHandler parse q henv f1 f2 = (400, minimalNullBody none) ∧
    (fullHandler parse q henv f1 f2).1 = 400 ∧
    (fullHandler parse q henv f1 f2).2.erro =
      some { message := "Parâmetro \"cnj\" é obrigatório.", detail := none } ∧
    (minimalNullBody none).cnj = none ∧
    (minimalNullBody none).status = none ∧
    (minimalNullBody none).processo.fase = none ∧
    (minimalNullBody none).ultima_movimentacao.conteudo = none ∧
    (minimalNullBody none).ultima_movimentacao_data = none ∧
    (minimalNullBody none).fonte = some "Fonte não informada" := by
  refine ⟨?_, ?_, ?_, rfl, rfl, rfl, rfl, rfl, rfl⟩
  · simp [minimalHandler, h]
  · simp [fullHandler, h]
  · simp [fullHandler, h, buildFullPayload, sOr]

/-- C7 witness: both handlers at a concrete whitespace-only `cnj`. -/
theorem missing_cnj_responses_witness :
    minimalHandler noParse { cnj := some " " } deadHandlerEnv 1 1 =
      (400, minimalNullBody none) ∧
    (fullHandler noParse { cnj := some " " } deadHandlerEnv 1 1).1 = 400 :=
  ⟨(missing_cnj_responses noParse { cnj := some " " } deadHandlerEnv 1 1 (by decide)).1,
   (missing_cnj_responses noParse { cnj := some " " } deadHandlerEnv 1 1 (by decide)).2.1⟩

/-- The full handler's post-polling classification only ever answers 200
or 202. -/
theorem fullFinal_code_cases (parse : Option String → Option Int) (cnj : String)
    (incAtt : Bool) (st : PollState) :
    (fullFinal parse cnj incAtt st).1 = 200 ∨ (fullFinal parse cnj incAtt st).1 = 202 := by
  cases hc : st.completed with
  | none => right; simp [fullFinal, hc]
  | some r =>
    by_cases hsig : completedSig st.requestStatus (some r) = true
    · left; simp [fullFinal, hc, hsig]
    · right; simp [fullFinal, hc, hsig]

/-- C10: in every full-profile body the ok flag is true iff `erro` is
null; any body built from a record (200 completed or 202 partial) has
`ok = true` and `erro = null`; the timeout-without-data body is a 202
with `ok = false` and a non-null `erro`; and every 400/500/502 response
has `ok = false` and a non-null `erro`. -/
theorem ok_iff_no_erro :
    (∀ parse cnj lawsuit error meta incAtt,
      ((buildFullPayload parse cnj lawsuit error meta incAtt).ok = true ↔
        (buildFullPayload parse cnj lawsuit error meta incAtt).erro = none)) ∧
    (∀ parse cnj incAtt st r, st.completed = some r →
      (fullFinal parse cnj incAtt st).2.ok = true ∧
        (fullFinal parse cnj incAtt st).2.erro = none) ∧
    (∀ parse cnj incAtt st, st.completed = none →
      (fullFinal parse cnj incAtt st).1 = 202 ∧
        (fullFinal parse cnj incAtt st).2.ok = false ∧
        (fullFinal parse cnj incAtt st).2.erro ≠ none) ∧
    (∀ parse q henv f1 f2,
      ((fullHandler parse q henv f1 f2).1 = 400 ∨
        (fullHandler parse q henv f1 f2).1 = 500 ∨
        (fullHandler parse q henv f1 f2).1 = 502) →
      (fullHandler parse q henv f1 f2).2.ok = false ∧
        (fullHandler parse q henv f1 f2).2.erro ≠ none) := by
  refine ⟨?_, ?_, ?_, ?_⟩
  · intro parse cnj lawsuit error meta incAtt
    cases error <;> simp [buildFullPayload]
  · intro parse cnj incAtt st r h
    simp only [fullFinal, h]
    split_ifs <;> simp [buildFullPayload]
  · intro parse cnj incAtt st h
    simp [fullFinal, h, buildFullPayload]
  · intro parse q henv f1 f2 h
    by_cases h1 : jsTrim (q.cnj.getD "") = ""
    · constructor <;> simp [fullHandler, h1, buildFullPayload]
    · cases h2 : henv.hasApiKey with
      | false => constructor <;> simp [fullHandler, h1, h2, buildFullPayload]
      | true =>
        cases hsub : henv.submitResult with
        | thrown m =>
          constructor <;> simp [fullHandler, h1, h2, hsub, buildFullPayload]
        | ok created =>
          cases hrid : sOr created.request_id none with
          | none =>
            constructor <;> simp [fullHandler, h1, h2, hsub, hrid, buildFullPayload]
          | some rid =>
            exfalso
            have heq : fullHandler parse q henv f1 f2 =
                fullFinal parse (jsTrim (q.cnj.getD ""))
                  (asBool (orDefault q.includeAttachments "0"))
                  (runLoops henv.env (effWaitMs q.waitMs) (effPollMs q.pollMs)
                    (effGraceMs q.graceMs) (effGracePollMs q.gracePollMs)
                    (asBool (orDefault q.retryOnPending "0")) f1 f2) := by
              simp [fullHandler, h1, h2, hsub, hrid]
            rw [heq] at h
            rcases fullFinal_code_cases parse (jsTrim (q.cnj.getD ""))
                (asBool (orDefault q.includeAttachments "0"))
                (runLoops henv.env (effWaitMs q.waitMs) (effPollMs q.pollMs)
                  (effGraceMs q.graceMs) (effGracePollMs q.gracePollMs)
                  (asBool (orDefault q.retryOnPending "0")) f1 f2) with hc | hc <;>
              rw [hc] at h <;> rcases h with h | h | h <;> exact absurd h (by decide)

/-- C10 witness: the 400 body of a concrete credential-less invocation
has `ok = false` and a non-null `erro`. -/
theorem ok_iff_no_erro_witness :
    (fullHandler noParse {} deadHandlerEnv 0 0).2.ok = false ∧
    (fullHandler noParse {} deadHandlerEnv 0 0).2.erro ≠ none :=
  ok_iff_no_erro.2.2.2 noParse {} deadHandlerEnv 0 0 (Or.inl (by decide))

/-- Membership through `insertStep`. -/
theorem mem_insertStep (parse : Option String → Option Int) (a x : Step)
    (l : List Step) : x ∈ insertStep parse a l ↔ x = a ∨ x ∈ l := by
  induction l with
  | nil => simp [insertStep]
  | cons b t ih =>
    by_cases h : stepLe parse a b
    · simp only [insertStep, if_pos h, List.mem_cons]
    · simp only [insertStep, if_neg h, List.mem_cons, ih]
      tauto

/-- `sortSteps` only permutes: members come from the input list. -/
theorem mem_sortSteps (parse : Option String → Option Int) (x : Step)
    (l : List Step) (h : x ∈ sortSteps parse l) : x ∈ l := by
  induction l with
  | nil => simpa [sortSteps] using h
  | cons a t ih =>
    rw [sortSteps, mem_insertStep] at h
    rcases h with rfl | hx
    · simp
    · exact List.mem_cons_of_mem a (ih hx)

/-- On steps with defined keys the keep-order relation is total. -/
theorem stepLe_total (parse : Option String → Option Int) (a b : Step)
    (ha : (parse a.step_date).isSome) (hb : (parse b.step_date).isSome)
    (h : stepLe parse a b = false) : stepLe parse b a = true := by
  obtain ⟨ka, hka⟩ := Option.isSome_iff_exists.1 ha
  obtain ⟨kb, hkb⟩ := Option.isSome_iff_exists.1 hb
  simp only [stepLe, hka, hkb, decide_eq_false_iff_not, not_le] at h
  simp only [stepLe, hka, hkb, decide_eq_true_eq]
  omega

/-- On steps with defined keys the keep-order relation is transitive. -/
theorem stepLe_trans (parse : Option String → Option Int) (a b c : Step)
    (ha : (parse a.step_date).isSome) (hb : (parse b.step_date).isSome)
    (hc : (parse c.step_date).isSome)
    (h1 : stepLe parse a b = true) (h2 : stepLe parse b c = true) :
    stepLe parse a c = true := by
  obtain ⟨ka, hka⟩ := Option.isSome_iff_exists.1 ha
  obtain ⟨kb, hkb⟩ := Option.isSome_iff_exists.1 hb
  obtain ⟨kc, hkc⟩ := Option.isSome_iff_exists.1 hc
  simp only [stepLe, hka, hkb, hkc, decide_eq_true_eq] at h1 h2 ⊢
  omega

/-- Inserting into a sorted list keeps it sorted, provided every involved
key is defined. -/
theorem pairwise_insertStep (parse : Option String → Option Int) (a : Step)
    (l : List Step)
    (hmem : ∀ s, s = a ∨ s ∈ l → (parse s.step_date).isSome)
    (hl : l.Pairwise (fun x y => stepLe parse x y = true)) :
    (insertStep parse a l).Pairwise (fun x y => stepLe parse x y = true) := by
  induction l with
  | nil => simp [insertStep]
  | cons b t ih =>
    have hls := List.pairwise_cons.1 hl
    by_cases hab : stepLe parse a b = true
    · rw [insertStep, if_pos hab]
      refine List.pairwise_cons.2 ⟨?_, hl⟩
      intro x hx
      rcases List.mem_cons.1 hx with rfl | hxt
      · exact hab
      · exact stepLe_trans parse a b x (hmem a (Or.inl rfl))
          (hmem b (Or.inr (by simp))) (hmem x (Or.inr (by simp [hxt])))
          hab (hls.1 x hxt)
    · rw [insertStep, if_neg hab]
      refine List.pairwise_cons.2 ⟨?_, ih ?_ hls.2⟩
      · intro x hx
        rcases (mem_insertStep parse a x t).1 hx with rfl | hxt
        · exact stepLe_total parse x b (hmem x (Or.inl rfl))
            (hmem b (Or.inr (by simp))) (Bool.eq_false_iff.2 hab)
        · exact hls.1 x hxt
      · intro s hs
        rcases hs with rfl | hst
        · exact hmem s (Or.inl rfl)
        · exact hmem s (Or.inr (List.mem_cons_of_mem b hst))

/-- When every step key is defined, the sorted list is pairwise ordered
by the keep-order relation. -/
theorem pairwise_sortSteps (parse : Option String → Option Int) (l : List Step)
    (hmem : ∀ s ∈ l, (parse s.step_date).isSome) :
    (sortSteps parse l).Pairwise (fun x y => stepLe parse x y = true) := by
  induction l with
  | nil => simp [sortSteps]
  | cons a t ih =>
    rw [sortSteps]
    refine pairwise_insertStep parse a (sortSteps parse t) ?_
      (ih (fun s hs => hmem s (List.mem_cons_of_mem a hs)))
    intro s hs
    rcases hs with rfl | hst
    · exact hmem s (by simp)
    · exact hmem s (List.mem_cons_of_mem a (mem_sortSteps parse s t hst))

/-- `dleB` is vacuously true against an undefined left key. -/
theorem dleB_none_left (w : Option Int) : dleB none w = true := by
  cases w <;> rfl

/-- `dleB` is vacuously true against an undefined right key. -/
theorem dleB_none_right (w : Option Int) : dleB w none = true := by
  cases w <;> rfl

/-- C3 counterexample: with an unparseable date between two parseable
ones in ascending order, the comparator returns `NaN` (treated as a tie)
around the middle element and the stable sort leaves the ascending pair
in place — the output movement list is NOT sorted non-ascending. -/
theorem movements_sort_counterexample :
    (buildFullPayload cexParse none (some cexLawsuit) none {} false).movimentacoes.map
        MovementOut.data = [some "5", some "X", some "10"] ∧
    cexParse (some "5") = some 5 ∧ cexParse (some "10") = some 10 ∧
    ¬ sortedMovs cexParse
        (buildFullPayload cexParse none (some cexLawsuit) none {} false).movimentacoes := by
  exact ⟨by decide, by decide, by decide, by decide⟩

/-- C3 (amended): the top-level most-recent fields (date, content) equal
those of the first element of the normalized movement list and are null
for the empty list, unconditionally; the list itself is sorted by
timestamp non-ascending whenever every step date parses (invalid dates
are what break the comparator — see the counterexample). -/
theorem movements_sorted_of_parsable_dates (parse : Option String → Option Int)
    (cnj : Option String) (lawsuit : Option Lawsuit) (error : Option ErrorIn)
    (meta : MetaIn) (incAtt : Bool) :
    (parse none = none →
      (∀ s ∈ stepsOf lawsuit (rdOf lawsuit), (parse s.step_date).isSome) →
      sortedMovs parse
        (buildFullPayload parse cnj lawsuit error meta incAtt).movimentacoes) ∧
    (buildFullPayload parse cnj lawsuit error meta incAtt).ultima_movimentacao_data =
      ((buildFullPayload parse cnj lawsuit error meta incAtt).movimentacoes.head?).bind
        MovementOut.data ∧
    (buildFullPayload parse cnj lawsuit error meta incAtt).texto =
      ((buildFullPayload parse cnj lawsuit error meta incAtt).movimentacoes.head?).bind
        MovementOut.conteudo ∧
    (buildFullPayload parse cnj lawsuit error meta incAtt).ultima_movimentacao =
      (buildFullPayload parse cnj lawsuit error meta incAtt).movimentacoes.head? ∧
    (buildMinimalPayload parse cnj lawsuit).ultima_movimentacao_data =
      (((sortSteps parse (stepsOf lawsuit (rdOf lawsuit))).head?).map mkMovement).bind
        MovementOut.data ∧
    (buildMinimalPayload parse cnj lawsuit).ultima_movimentacao.conteudo =
      (((sortSteps parse (stepsOf lawsuit (rdOf lawsuit))).head?).map mkMovement).bind
        MovementOut.conteudo ∧
    (stepsOf lawsuit (rdOf lawsuit) = [] →
      (buildFullPayload parse cnj lawsuit error meta incAtt).ultima_movimentacao = none ∧
      (buildFullPayload parse cnj lawsuit error meta incAtt).ultima_movimentacao_data = none ∧
      (buildFullPayload parse cnj lawsuit error meta incAtt).texto = none ∧
      (buildMinimalPayload parse cnj lawsuit).ultima_movimentacao_data = none) := by
  have hmovs : (buildFullPayload parse cnj lawsuit error meta incAtt).movimentacoes =
      (sortSteps parse (stepsOf lawsuit (rdOf lawsuit))).map mkMovement := rfl
  have hdata : ∀ o : Option Step,
      (match o with | some s => sOr s.step_date none | none => none) =
        (o.map mkMovement).bind MovementOut.data := by
    intro o; cases o <;> rfl
  have hcont : ∀ o : Option Step,
      (match o with | some s => sOr s.content none | none => none) =
        (o.map mkMovement).bind MovementOut.conteudo := by
    intro o; cases o <;> rfl
  refine ⟨?_, ?_, ?_, ?_, ?_, ?_, ?_⟩
  · intro hnone hall
    rw [hmovs, sortedMovs, List.pairwise_map]
    refine List.Pairwise.imp_of_mem ?_
      (pairwise_sortSteps parse (stepsOf lawsuit (rdOf lawsuit)) hall)
    intro x y hx hy hxy
    obtain ⟨kx, hkx⟩ := Option.isSome_iff_exists.1
      (hall x (mem_sortSteps parse x _ hx))
    obtain ⟨ky, hky⟩ := Option.isSome_iff_exists.1
      (hall y (mem_sortSteps parse y _ hy))
    cases hxd : x.step_date with
    | none => rw [hxd, hnone] at hkx; exact Option.noConfusion hkx
    | some vx =>
      cases hyd : y.step_date with
      | none => rw [hyd, hnone] at hky; exact Option.noConfusion hky
      | some vy =>
        by_cases hvy : vy = ""
        · have : (mkMovement y).data = none := by
            simp [mkMovement, sOr, hyd, hvy]
          rw [this, hnone]
          exact dleB_none_left _
        · by_cases hvx : vx = ""
          · have : (mkMovement x).data = none := by
              simp [mkMovement, sOr, hxd, hvx]
            rw [this, hnone]
            exact dleB_none_right _
          · have hdx : (mkMovement x).data = some vx := by
              simp [mkMovement, sOr, hxd, hvx]
            have hdy : (mkMovement y).data = some vy := by
              simp [mkMovement, sOr, hyd, hvy]
            rw [hdx, hdy, ← hxd, ← hyd, hkx, hky]
            rw [hxd] at hkx
            rw [hyd] at hky
            simp only [stepLe, hkx, hky, hxd, hyd, decide_eq_true_eq] at hxy
            simpa [dleB] using hxy
  · rw [hmovs, List.head?_map]
    exact hdata ((sortSteps parse (stepsOf lawsuit (rdOf lawsuit))).head?)
  · rw [hmovs, List.head?_map]
    exact hcont ((sortSteps parse (stepsOf lawsuit (rdOf lawsuit))).head?)
  · rw [hmovs, List.head?_map]; rfl
  · exact hdata ((sortSteps parse (stepsOf lawsuit (rdOf lawsuit))).head?)
  · exact hcont ((sortSteps parse (stepsOf lawsuit (rdOf lawsuit))).head?)
  · intro h0
    have hempty : sortSteps parse (stepsOf lawsuit (rdOf lawsuit)) = [] := by
      rw [h0]; rfl
    refine ⟨?_, ?_, ?_, ?_⟩
    · show ((sortSteps parse (stepsOf lawsuit (rdOf lawsuit))).head?).map mkMovement = none
      rw [hempty]; rfl
    · show (match (sortSteps parse (stepsOf lawsuit (rdOf lawsuit))).head? with
        | some s => sOr s.step_date none | none => none) = none
      rw [hempty]; rfl
    · show (match (sortSteps parse (stepsOf lawsuit (rdOf lawsuit))).head? with
        | some s => sOr s.content none | none => none) = none
      rw [hempty]; rfl
    · show (match (sortSteps parse (stepsOf lawsuit (rdOf lawsuit))).head? with
        | some s => sOr s.step_date none | none => none) = none
      rw [hempty]; rfl

/-- C3 witness: a payload whose dates all parse is sorted non-ascending. -/
theorem movements_sorted_witness :
    sortedMovs cexParse
      (buildFullPayload cexParse none (some okLawsuit) none {} false).movimentacoes :=
  (movements_sorted_of_parsable_dates cexParse none (some okLawsuit) none {}
    false).1 rfl (by decide)

/-- As soon as the break signal fires, the loop returns that iteration's
state: no sleep is added and no further iteration runs. -/
theorem pollLoopAux_break (env : PollEnv) (waitMs pollMs : Option Int)
    (fuel : Nat) (st : PollState)
    (hcond : jsLtNat st.elapsed waitMs = true)
    (hbrk : (pollIter env st.attempts st).2 = true) :
    pollLoopAux env waitMs pollMs (fuel + 1) st = (pollIter env st.attempts st).1 := by
  simp [pollLoopAux, hcond, hbrk]

/-- C2: (general) from any state within the budget, an iteration whose
fetched page is non-empty and whose completion signal fires makes the
loop return that iteration's state immediately — no further sleep or
iteration; (scenario) if the first iteration's page already carries a
record and a completion signal, the whole pipeline stops after exactly
one iteration, the attempt counter is 1, and the response is 200 with a
false partial flag. -/
theorem poll_completion_exits_immediately :
    (∀ (env : PollEnv) (waitMs pollMs : Option Int) (fuel : Nat) (st : PollState),
      jsLtNat st.elapsed waitMs = true →
      (pollIter env st.attempts st).2 = true →
      pollLoopAux env waitMs pollMs (fuel + 1) st = (pollIter env st.attempts st).1) ∧
    (∀ (parse : Option String → Option Int) (env : PollEnv) (cnj : String)
       (incAtt : Bool) (waitMs pollMs graceMs gracePollMs : Option Int)
       (retry : Bool) (f1 f2 : Nat) (resp : PollResp) (r : ResultRecord)
       (rest : List ResultRecord),
      jsLtNat 0 waitMs = true →
      env.respAt 0 = .ok resp →
      resp.page_data = some (r :: rest) →
      completedSig (pollIter env 0 initPollState).1.requestStatus
        (pollIter env 0 initPollState).1.completed = true →
      runLoops env waitMs pollMs graceMs gracePollMs retry (f1 + 1) f2 =
        (pollIter env 0 initPollState).1 ∧
      (pollIter env 0 initPollState).1.attempts = 1 ∧
      (fullFinal parse cnj incAtt (pollIter env 0 initPollState).1).1 = 200 ∧
      (fullFinal parse cnj incAtt (pollIter env 0 initPollState).1).2.meta.parcial
        = false) := by
  constructor
  · intro env waitMs pollMs fuel st hcond hbrk
    exact pollLoopAux_break env waitMs pollMs fuel st hcond hbrk
  · intro parse env cnj incAtt waitMs pollMs graceMs gracePollMs retry f1 f2
      resp r rest h0 hresp hpage hsig
    have hsnd : (pollIter env 0 initPollState).2 =
        completedSig (pollIter env 0 initPollState).1.requestStatus
          (pollIter env 0 initPollState).1.completed := by
      cases hstat : env.statusAt 0 <;>
        simp [pollIter, pollFetch, pollStatus, hstat, hresp, hpage]
    have hbrk : (pollIter env 0 initPollState).2 = true := by
      rw [hsnd]; exact hsig
    have hattempts : (pollIter env 0 initPollState).1.attempts = 1 := by
      cases hstat : env.statusAt 0 <;>
        simp [pollIter, pollFetch, pollStatus, hstat, hresp, hpage, initPollState]
    have hcomp : (pollIter env 0 initPollState).1.completed = some r := by
      cases hstat : env.statusAt 0 <;>
        simp [pollIter, pollFetch, pollStatus, hstat, hresp, hpage]
    have hloop : pollLoopAux env waitMs pollMs (f1 + 1) initPollState =
        (pollIter env 0 initPollState).1 :=
      pollLoopAux_break env waitMs pollMs f1 initPollState h0 hbrk
    have hrun : runLoops env waitMs pollMs graceMs gracePollMs retry (f1 + 1) f2 =
        (pollIter env 0 initPollState).1 := by
      simp only [runLoops, hloop, hsig]
      simp
    have hsig' : completedSig (pollIter env 0 initPollState).1.requestStatus
        (some r) = true := by
      rw [← hcomp]; exact hsig
    refine ⟨hrun, hattempts, ?_, ?_⟩
    · simp [fullFinal, hcomp, hsig']
    · simp [fullFinal, hcomp, hsig', buildFullPayload, mkMeta]

/-- C2 witness: a first-poll completed record at concrete inputs. -/
theorem poll_completion_exits_immediately_witness :
    runLoops okPollEnv (some 30000) (some 1500) (some 5000) (some 800) false 1 0 =
      (pollIter okPollEnv 0 initPollState).1 ∧
    (pollIter okPollEnv 0 initPollState).1.attempts = 1 ∧
    (fullFinal noParse "123" false (pollIter okPollEnv 0 initPollState).1).1 = 200 := by
  have h := poll_completion_exits_immediately.2 noParse okPollEnv "123" false
    (some 30000) (some 1500) (some 5000) (some 800) false 0 0
    { page_data := some [okRecord], request_status := some "completed" } okRecord []
    (by decide) rfl rfl (by decide)
  exact ⟨h.1, h.2.1, h.2.2.1⟩

/-- C1: an invocation that passes validation and submission reaches the
terminal classifier on the polling outcome; a state with a record and a
completion signal answers 200 with a false partial flag, a record
without the signal answers 202 with a true partial flag and no error,
and no record answers 202 with an explanatory error and no case data. -/
theorem full_terminal_classification (parse : Option String → Option Int)
    (q : QueryParams) (henv : HandlerEnv) (f1 f2 : Nat)
    (created : SubmitResp) (rid : String)
    (hcnj : ¬ jsTrim (q.cnj.getD "") = "")
    (hkey : henv.hasApiKey = true)
    (hsub : henv.submitResult = .ok created)
    (hrid : sOr created.request_id none = some rid) :
    fullHandler parse q henv f1 f2 =
      fullFinal parse (jsTrim (q.cnj.getD ""))
        (asBool (orDefault q.includeAttachments "0"))
        (runLoops henv.env (effWaitMs q.waitMs) (effPollMs q.pollMs)
          (effGraceMs q.graceMs) (effGracePollMs q.gracePollMs)
          (asBool (orDefault q.retryOnPending "0")) f1 f2) ∧
    (∀ (parse2 : Option String → Option Int) (cnj : String) (incAtt : Bool)
       (st : PollState) (r : ResultRecord),
      st.completed = some r →
      completedSig st.requestStatus st.completed = true →
      (fullFinal parse2 cnj incAtt st).1 = 200 ∧
        (fullFinal parse2 cnj incAtt st).2.meta.parcial = false) ∧
    (∀ (parse2 : Option String → Option Int) (cnj : String) (incAtt : Bool)
       (st : PollState) (r : ResultRecord),
      st.completed = some r →
      completedSig st.requestStatus st.completed = false →
      (fullFinal parse2 cnj incAtt st).1 = 202 ∧
        (fullFinal parse2 cnj incAtt st).2.meta.parcial = true ∧
        (fullFinal parse2 cnj incAtt st).2.erro = none) ∧
    (∀ (parse2 : Option String → Option Int) (cnj : String) (incAtt : Bool)
       (st : PollState),
      st.completed = none →
      (fullFinal parse2 cnj incAtt st).1 = 202 ∧
        (fullFinal parse2 cnj incAtt st).2.erro ≠ none ∧
        (fullFinal parse2 cnj incAtt st).2.movimentacoes = [] ∧
        (fullFinal parse2 cnj incAtt st).2.partes = [] ∧
        (fullFinal parse2 cnj incAtt st).2.ultima_movimentacao = none) := by
  refine ⟨?_, ?_, ?_, ?_⟩
  · simp [fullHandler, hcnj, hkey, hsub, hrid]
  · intro parse2 cnj incAtt st r h hsig
    rw [h] at hsig
    simp [fullFinal, h, hsig, buildFullPayload, mkMeta]
  · intro parse2 cnj incAtt st r h hsig
    rw [h] at hsig
    simp [fullFinal, h, hsig, buildFullPayload, mkMeta]
  · intro parse2 cnj incAtt st h
    simp [fullFinal, h, buildFullPayload, mkMeta, rdOf, stepsOf, directSteps,
      sortSteps, partiesOf]

/-- C1 witness: timeout without data at concrete inputs answers 202 with
an error body. -/
theorem full_terminal_classification_witness :
    (fullHandler noParse { cnj := some "0001" } timeoutHandlerEnv 1 1).1 = 202 ∧
    (fullHandler noParse { cnj := some "0001" } timeoutHandlerEnv 1 1).2.erro ≠ none := by
  have h := full_terminal_classification noParse { cnj := some "0001" }
    timeoutHandlerEnv 1 1 { request_id := some "req-1" } "req-1"
    (by decide) rfl rfl (by decide)
  rw [h.1]
  have h4 := h.2.2.2 noParse (jsTrim ((some "0001" : Option String).getD ""))
    (asBool (orDefault none "0"))
    (runLoops timeoutHandlerEnv.env (effWaitMs none) (effPollMs none)
      (effGraceMs none) (effGracePollMs none) (asBool (orDefault none "0")) 1 1)
    rfl
  exact ⟨h4.1, h4.2.1⟩
